import Mathlib

/-!
Verification of the event-backend repository: a mongoose connection cache
(two source variants of `lib/mongodb`) and a Next.js API route exposing
`POST /api/events` and `GET /api/events`.

The embedding is shallow: the asynchronous JavaScript is modelled as pure
state-passing functions, promises as their settled outcomes
(`Except String α`), and the external collaborators (mongoose connect,
Cloudinary upload, `Event.create`, `Event.find`) as explicit outcome
parameters. Effects that the claims talk about (starting a connection
attempt, invoking the upload, inserting a document) are recorded as
explicit fields of the result so that theorems can state they did or did
not happen.
-/

/-! ## Connection cache (`src/unnamed/part_000` and `src/unnamed/part_001`)

Both variants keep a module-level cache
`\x7b conn: mongoose | null, promise: Promise<mongoose> | null \x7d`.
A promise is modelled by its settled outcome. -/

/-- A mongoose handle is opaque to this code; we model it as a natural
number tag so that distinct handles are distinguishable. -/
abbrev Handle := Nat

/-- The `MongooseCache` record of both variants:
`conn` is the cached handle, `promise` the settled outcome of the cached
in-flight connection attempt (if any). -/
structure MongooseCache where
  conn : Option Handle
  promise : Option (Except String Handle)

/-- The error message thrown by both variants when `MONGODB_URI` is
absent. -/
def uriErrorMsg : String :=
  "Please define the MONGODB_URI environment variable inside .env.local"

/-- Module-load initialisation of `src/unnamed/part_000`: reads
`process.env.MONGODB_URI`, throws `uriErrorMsg` at module load when it is
absent (lines 16-20), then installs `global.mongoose || \x7b conn: null,
promise: null \x7d` as the cache (lines 23-27). `globalCache` models
`global.mongoose`. -/
def moduleInit_v0 (uri : Option String) (globalCache : Option MongooseCache) :
    Except String MongooseCache :=
  match uri with
  | none => .error uriErrorMsg
  | some _ => .ok (globalCache.getD ⟨none, none⟩)

/-- Module-load initialisation of `src/unnamed/part_001`: no URI check at
module load; just installs `global.mongoose || \x7b conn: null, promise:
null \x7d` (lines 15-22). -/
def moduleInit_v1 (_uri : Option String) (globalCache : Option MongooseCache) :
    Except String MongooseCache :=
  .ok (globalCache.getD ⟨none, none⟩)

/-- Result of one `connectDB()` call: the value returned or error thrown,
the cache state after the call, and whether this call started a new
`mongoose.connect` attempt (used by the claims about "no network
attempt"). -/
structure ConnectOutcome where
  result : Except String Handle
  state : MongooseCache
  attemptStarted : Bool

/-- `connectDB` of `src/unnamed/part_000` (lines 35-60). The URI was
checked at module load, so inside the function it is a plain `String`.
`connectResult` is the settled outcome of `mongoose.connect(MONGODB_URI,
\x7b bufferCommands: false \x7d)` if this call starts one; the
`.then((mongoose) => mongoose)` wrapper is the identity. On awaited
failure `cached.promise` is reset to `null` and the error rethrown. -/
def connectDB_v0 (_uri : String) (connectResult : Except String Handle)
    (st : MongooseCache) : ConnectOutcome :=
  match st.conn with
  | some h => ⟨.ok h, st, false⟩
  | none =>
    match st.promise with
    | some pending =>
      match pending with
      | .ok h => ⟨.ok h, ⟨some h, some pending⟩, false⟩
      | .error e => ⟨.error e, ⟨none, none⟩, false⟩
    | none =>
      match connectResult with
      | .ok h => ⟨.ok h, ⟨some h, some connectResult⟩, true⟩
      | .error e => ⟨.error e, ⟨none, none⟩, true⟩

/-- `connectDB` of `src/unnamed/part_001` (lines 32-68). Identical to
`connectDB_v0` except that the missing-URI check happens inside the
function, lazily, just before a new attempt would be started (lines
41-45): with a cached `conn` or a pending `promise` the check is never
reached. -/
def connectDB_v1 (uri : Option String) (connectResult : Except String Handle)
    (st : MongooseCache) : ConnectOutcome :=
  match st.conn with
  | some h => ⟨.ok h, st, false⟩
  | none =>
    match st.promise with
    | some pending =>
      match pending with
      | .ok h => ⟨.ok h, ⟨some h, some pending⟩, false⟩
      | .error e => ⟨.error e, ⟨none, none⟩, false⟩
    | none =>
      match uri with
      | none => ⟨.error uriErrorMsg, st, false⟩
      | some _ =>
        match connectResult with
        | .ok h => ⟨.ok h, ⟨some h, some connectResult⟩, true⟩
        | .error e => ⟨.error e, ⟨none, none⟩, true⟩

/-! ## A model of `JSON.parse`

The route calls `JSON.parse` on the `tags` and `agenda` form fields. We
model the full JSON grammar that `JSON.parse` implements: `null`,
booleans, numbers (optional sign, integer part without leading zeros,
optional fraction and exponent; the value is kept exactly as a decimal
mantissa and a power of ten, since no code path of the repository
inspects numeric values and float rounding is outside the model),
strings with the complete JSON escape set (a `\u` escape denoting a
lone surrogate yields the null character, which affects only the decoded
value, never whether parsing succeeds), arrays, and objects.
`JSON.parse` of a non-string first coerces its argument to a string,
which the route model handles separately. -/

inductive Json where
  | null
  | bool (b : Bool)
  | num (mantissa : Int) (exp10 : Int)
  | str (s : String)
  | arr (xs : List Json)
  | obj (members : List (String × Json))
deriving Repr

/-- Skip JSON whitespace. -/
def jsonSkipWs : List Char → List Char
  | c :: cs =>
    if c = ' ' ∨ c = '\t' ∨ c = '\n' ∨ c = '\r' then jsonSkipWs cs else c :: cs
  | [] => []

/-- Value of a hexadecimal digit, if any. -/
def hexVal (c : Char) : Option Nat :=
  if 48 ≤ c.toNat ∧ c.toNat ≤ 57 then some (c.toNat - 48)
  else if 97 ≤ c.toNat ∧ c.toNat ≤ 102 then some (c.toNat - 97 + 10)
  else if 65 ≤ c.toNat ∧ c.toNat ≤ 70 then some (c.toNat - 65 + 10)
  else none

/-- Parse the body of a JSON string literal (the opening quote already
consumed), returning the string and the remaining input. All JSON
escapes are handled, and an unescaped control character is rejected, as
`JSON.parse` does. -/
def jsonParseStrBody : List Char → Except String (String × List Char)
  | [] => .error "Unterminated string in JSON"
  | c :: cs =>
    if c = '"' then .ok ("", cs)
    else if c = '\\' then
      match cs with
      | [] => .error "Unterminated string in JSON"
      | e :: cs2 =>
        if e = 'u' then
          match cs2 with
          | h1 :: h2 :: h3 :: h4 :: rest =>
            match hexVal h1, hexVal h2, hexVal h3, hexVal h4 with
            | some a, some b, some c2, some d =>
              match jsonParseStrBody rest with
              | .error m => .error m
              | .ok (s, r2) =>
                .ok (⟨Char.ofNat (((a * 16 + b) * 16 + c2) * 16 + d) :: s.data⟩, r2)
            | _, _, _, _ => .error "Bad Unicode escape in JSON"
          | _ => .error "Bad Unicode escape in JSON"
        else
          let esc : Except String Char :=
            if e = '"' then .ok '"'
            else if e = '\\' then .ok '\\'
            else if e = '/' then .ok '/'
            else if e = 'n' then .ok '\n'
            else if e = 't' then .ok '\t'
            else if e = 'r' then .ok '\r'
            else if e = 'b' then .ok (Char.ofNat 8)
            else if e = 'f' then .ok (Char.ofNat 12)
            else .error "Bad escaped character in JSON"
          match esc with
          | .error m => .error m
          | .ok ch =>
            match jsonParseStrBody cs2 with
            | .error m => .error m
            | .ok (s, rest) => .ok (⟨ch :: s.data⟩, rest)
    else if c.toNat < 32 then .error "Bad control character in JSON string"
    else
      match jsonParseStrBody cs with
      | .error m => .error m
      | .ok (s, rest) => .ok (⟨c :: s.data⟩, rest)

/-- Parse a run of decimal digits. -/
def jsonParseDigits : List Char → Nat → List Char → (Nat × List Char)
  | c :: cs, acc, _orig =>
    if c.isDigit then jsonParseDigits cs (acc * 10 + (c.toNat - '0'.toNat)) (c :: cs)
    else (acc, c :: cs)
  | [], acc, _orig => (acc, [])

/-- Build the number value from its sign, decimal mantissa and power of
ten. -/
def mkNum (neg : Bool) (mant : Nat) (exp10 : Int) : Json :=
  .num (if neg then -(mant : Int) else (mant : Int)) exp10

/-- Parse the optional fraction and exponent after the integer part of a
JSON number, per the JSON number grammar. -/
def jsonParseNumTail (neg : Bool) (ip : Nat) (cs : List Char) :
    Except String (Json × List Char) :=
  let fracStep : Except String (Nat × Int × List Char) :=
    match cs with
    | '.' :: d :: rest =>
      if d.isDigit then
        let p := jsonParseDigits rest (d.toNat - '0'.toNat) rest
        let k : Nat := 1 + (rest.length - p.2.length)
        .ok (ip * 10 ^ k + p.1, -(k : Int), p.2)
      else .error "Unexpected token in JSON"
    | ['.'] => .error "Unexpected token in JSON"
    | _ => .ok (ip, 0, cs)
  match fracStep with
  | .error m => .error m
  | .ok (mant, e1, cs2) =>
    match cs2 with
    | c :: rest =>
      if c = 'e' ∨ c = 'E' then
        let sp : Int × List Char :=
          match rest with
          | '+' :: r => (1, r)
          | '-' :: r => (-1, r)
          | r => (1, r)
        match sp.2 with
        | d :: r2 =>
          if d.isDigit then
            let p := jsonParseDigits r2 (d.toNat - '0'.toNat) r2
            .ok (mkNum neg mant (e1 + sp.1 * (p.1 : Int)), p.2)
          else .error "Unexpected token in JSON"
        | [] => .error "Unexpected token in JSON"
      else .ok (mkNum neg mant e1, c :: rest)
    | [] => .ok (mkNum neg mant e1, [])

/-- Parse a JSON number at the head of the input: optional minus sign,
integer part (a leading zero must stand alone, as `JSON.parse`
requires), optional fraction and exponent. -/
def jsonParseNumber (cs : List Char) : Except String (Json × List Char) :=
  let sp : Bool × List Char :=
    match cs with
    | '-' :: rest => (true, rest)
    | _ => (false, cs)
  match sp.2 with
  | c :: rest =>
    if c = '0' then
      match rest with
      | d :: _ =>
        if d.isDigit then .error "Unexpected number with leading zero in JSON"
        else jsonParseNumTail sp.1 0 rest
      | [] => jsonParseNumTail sp.1 0 []
    else if c.isDigit then
      let p := jsonParseDigits rest (c.toNat - '0'.toNat) rest
      jsonParseNumTail sp.1 p.1 p.2
    else .error "Unexpected token in JSON"
  | [] => .error "Unexpected token in JSON"

mutual

/-- Parse one JSON value; fuel bounds the recursion depth and is chosen
in `jsonParse` so that it can never run out before the input does. -/
def jsonParseValue : Nat → List Char → Except String (Json × List Char)
  | 0, _ => .error "Unexpected end of JSON input"
  | fuel + 1, cs =>
    match jsonSkipWs cs with
    | [] => .error "Unexpected end of JSON input"
    | c :: rest =>
      if c = '"' then
        match jsonParseStrBody rest with
        | .error m => .error m
        | .ok (s, rest2) => .ok (.str s, rest2)
      else if c = '[' then
        match jsonSkipWs rest with
        | ']' :: rest2 => .ok (.arr [], rest2)
        | rest2 => jsonParseArrElems fuel rest2 []
      else if c = '\x7b' then
        match jsonSkipWs rest with
        | '\x7d' :: rest2 => .ok (.obj [], rest2)
        | rest2 => jsonParseObjMembers fuel rest2 []
      else if c = 'n' then
        match rest with
        | 'u' :: 'l' :: 'l' :: rest2 => .ok (.null, rest2)
        | _ => .error "Unexpected token in JSON"
      else if c = 't' then
        match rest with
        | 'r' :: 'u' :: 'e' :: rest2 => .ok (.bool true, rest2)
        | _ => .error "Unexpected token in JSON"
      else if c = 'f' then
        match rest with
        | 'a' :: 'l' :: 's' :: 'e' :: rest2 => .ok (.bool false, rest2)
        | _ => .error "Unexpected token in JSON"
      else if c = '-' ∨ c.isDigit then jsonParseNumber (c :: rest)
      else .error "Unexpected token in JSON"

/-- Parse the elements of a JSON array after its first element position;
the opening bracket is already consumed and the array is non-empty. -/
def jsonParseArrElems : Nat → List Char → List Json → Except String (Json × List Char)
  | 0, _, _ => .error "Unexpected end of JSON input"
  | fuel + 1, cs, acc =>
    match jsonParseValue fuel cs with
    | .error m => .error m
    | .ok (v, rest) =>
      match jsonSkipWs rest with
      | ',' :: rest2 => jsonParseArrElems fuel rest2 (acc ++ [v])
      | ']' :: rest2 => .ok (.arr (acc ++ [v]), rest2)
      | _ => .error "Expected comma or closing bracket in JSON"

/-- Parse the members of a JSON object after its first member position;
the opening brace is already consumed and the object is non-empty. -/
def jsonParseObjMembers : Nat → List Char → List (String × Json) →
    Except String (Json × List Char)
  | 0, _, _ => .error "Unexpected end of JSON input"
  | fuel + 1, cs, acc =>
    match jsonSkipWs cs with
    | '"' :: rest =>
      match jsonParseStrBody rest with
      | .error m => .error m
      | .ok (key, rest2) =>
        match jsonSkipWs rest2 with
        | ':' :: rest3 =>
          match jsonParseValue fuel rest3 with
          | .error m => .error m
          | .ok (v, rest4) =>
            match jsonSkipWs rest4 with
            | ',' :: rest5 => jsonParseObjMembers fuel rest5 (acc ++ [(key, v)])
            | '\x7d' :: rest5 => .ok (.obj (acc ++ [(key, v)]), rest5)
            | _ => .error "Expected comma or closing brace in JSON"
        | _ => .error "Expected colon in JSON object"
    | _ => .error "Expected property name in JSON object"

end

/-- The model of `JSON.parse` on a string: parse one value and require
only trailing whitespace after it. The fuel exceeds what any input of
this length can consume, so every error is a genuine syntax error. -/
def jsonParse (s : String) : Except String Json :=
  match jsonParseValue (2 * s.length + 2) s.data with
  | .error m => .error m
  | .ok (v, rest) =>
    match jsonSkipWs rest with
    | [] => .ok v
    | _ => .error "Unexpected non-whitespace character after JSON data"

/-! ## The event route (`src/app/api/events/route.ts`)

Multipart form data is a sequence of (name, value) entries where each
value is a string or a file; `formData.get(name)` returns the first value
with that name, or null (modelled as `none`). -/

/-- The byte content of an uploaded file. -/
structure FileData where
  bytes : List Nat
deriving DecidableEq, Repr

/-- A multipart form entry value: a text field or a file. -/
inductive FormValue where
  | str (s : String)
  | file (f : FileData)
deriving DecidableEq, Repr

/-- `formData.get(name)`: first entry with the given name, else null. -/
def formGet (form : List (String × FormValue)) (name : String) : Option FormValue :=
  match form with
  | [] => none
  | (k, v) :: rest => if k = name then some v else formGet rest name

/-- JavaScript truthiness of `formData.get("image")`: null and the empty
string are falsy; files and non-empty strings are truthy. -/
def isTruthy : Option FormValue → Bool
  | none => false
  | some (.str s) => s ≠ ""
  | some (.file _) => true

/-- A value stored in the mutable `event` object of the POST handler:
form field values, plus the strings and parsed-JSON values the handler
writes into it. -/
inductive Val where
  | str (s : String)
  | file (f : FileData)
  | json (j : Json)

/-- A JavaScript object, as a map from property names to values. -/
def JsObj : Type := String → Option Val

/-- Property assignment `o[k] = v` (also how an object-literal spread
overrides a key). -/
def objSet (o : JsObj) (k : String) (v : Val) : JsObj :=
  fun k2 => if k2 = k then some v else o k2

/-- The empty object. -/
def objEmpty : JsObj := fun _ => none

/-- The value of one form entry inside `Object.fromEntries`. -/
def valOfFormValue : FormValue → Val
  | .str s => .str s
  | .file f => .file f

/-- `Object.fromEntries(formData.entries())`: builds an object from the
entries in order, later entries overriding earlier ones. -/
def objFromEntries (form : List (String × FormValue)) : JsObj :=
  form.foldl (fun o kv => objSet o kv.1 (valOfFormValue kv.2)) objEmpty

/-- `Object.fromEntries` over a form entry list, as the fallible step the
source wraps in try/catch (route.ts lines 28-35). Its argument is always
an iterable of key-value pairs, so in JavaScript the call cannot throw;
accordingly this model always returns `.ok`. -/
def objFromEntriesE (form : List (String × FormValue)) : Except String JsObj :=
  .ok (objFromEntries form)

/-- The string `JSON.parse` receives for a form field cast `as string`:
a missing field is null, which coerces to the string "null"; a file
coerces to its object tag. -/
def jsToString : Option FormValue → String
  | none => "null"
  | some (.str s) => s
  | some (.file _) => "[object File]"

/-- `file.arrayBuffer()` on the value of `formData.get("image")` after
the truthiness check: files yield their bytes; a (non-empty) string has
no `arrayBuffer` method, so the call throws a TypeError. The null case is
unreachable after the check but the model is total. -/
def fileArrayBuffer : Option FormValue → Except String (List Nat)
  | some (.file f) => .ok f.bytes
  | some (.str _) => .error "file.arrayBuffer is not a function"
  | none => .error "Cannot read properties of null"

/-- The Cloudinary upload result; the handler reads `secure_url`. -/
structure UploadResult where
  secure_url : String
deriving DecidableEq, Repr

/-- The observable outcome of one POST call: the HTTP response fields
(status, body message, body `event`, body `error`) and the side effects
(whether the Cloudinary upload was invoked, and the document inserted by
`Event.create`, if any). -/
structure PostResult where
  status : Nat
  message : String
  event : Option JsObj
  error : Option String
  uploadCalled : Bool
  inserted : Option JsObj

/-- The 500 response of the outer catch of POST (route.ts lines 76-85):
message "Event Creation Failed" with the thrown error message. -/
def postFail (e : String) (up : Bool) : PostResult :=
  { status := 500, message := "Event Creation Failed", event := none,
    error := some e, uploadCalled := up, inserted := none }

/-- A 400 client-error response of POST. -/
def postReject (msg : String) : PostResult :=
  { status := 400, message := msg, event := none, error := none,
    uploadCalled := false, inserted := none }

/-- The POST handler of route.ts (lines 20-86), with its three external
collaborators as settled outcomes: `connect` for `connectDB()`, `upload`
for the Cloudinary `upload_stream` promise, `create` for
`Event.create`. Control flow follows the source: connect, parse form,
`Object.fromEntries` under the inner try/catch, require a truthy `image`
value, `JSON.parse` the `tags` then `agenda` fields (uncaught, so a parse
error reaches the outer catch), read the file bytes, upload, set
`event.image` to the secure URL, insert `\x7b ...event, tags, agenda \x7d`,
and answer 201. -/
def POST (connect : Except String Unit) (upload : Except String UploadResult)
    (create : Except String Unit) (form : List (String × FormValue)) : PostResult :=
  match connect with
  | .error e => postFail e false
  | .ok _ =>
    match objFromEntriesE form with
    | .error _ => postReject "Invalid JSON data format"
    | .ok event =>
      let file := formGet form "image"
      if !isTruthy file then postReject "Image file is required"
      else
        match jsonParse (jsToString (formGet form "tags")) with
        | .error e => postFail e false
        | .ok tags =>
          match jsonParse (jsToString (formGet form "agenda")) with
          | .error e => postFail e false
          | .ok agenda =>
            match fileArrayBuffer file with
            | .error e => postFail e false
            | .ok _buffer =>
              match upload with
              | .error e => postFail e true
              | .ok res =>
                let event2 := objSet event "image" (.str res.secure_url)
                let doc := objSet (objSet event2 "tags" (.json tags)) "agenda" (.json agenda)
                match create with
                | .error e => postFail e true
                | .ok _ =>
                  { status := 201, message := "Event created successfully",
                    event := some doc, error := none, uploadCalled := true,
                    inserted := some doc }

/-- An event record as stored in the database, with the implicit creation
timestamp that the GET handler sorts on and an opaque payload. -/
structure StoredEvent where
  createdAt : Nat
  payload : String
deriving DecidableEq, Repr

/-- The collaborator call `Event.find().sort(\x7b createdAt: -1 \x7d)`:
all stored records, ordered by `createdAt` descending (newest first). -/
def mongoSortDesc (store : List StoredEvent) : List StoredEvent :=
  List.insertionSort (fun a b => b.createdAt ≤ a.createdAt) store

/-- The observable outcome of one GET call. -/
structure GetResult where
  status : Nat
  message : String
  events : Option (List StoredEvent)
  error : Option String
deriving DecidableEq, Repr

/-- The GET handler of route.ts (lines 93-109): connect, run the
`Event.find().sort(...)` query, answer 200 with its result; any throw,
from the connect or from the query, reaches the catch and answers 500
with the raw error. `findResult` is the settled outcome of the query
promise; when it fulfills, its value is all stored records newest-first
(`mongoSortDesc store`). -/
def GET (connect : Except String Unit) (findResult : Except String Unit)
    (store : List StoredEvent) : GetResult :=
  match connect with
  | .error e =>
    { status := 500, message := "Event fetching failed", events := none,
      error := some e }
  | .ok _ =>
    match findResult with
    | .error e =>
      { status := 500, message := "Event fetching failed", events := none,
        error := some e }
    | .ok _ =>
      { status := 200, message := "Events fetched successfully",
        events := some (mongoSortDesc store), error := none }

/-! ## Theorems for the claims -/

/-- C9: in the POST handler, `Object.fromEntries` over the form entries
never throws (the model always returns `.ok`), so the inner catch that
answers 400 "Invalid JSON data format" is unreachable and no POST
response ever carries that message. -/
theorem POST_never_invalid_json_message (connect : Except String Unit)
    (upload : Except String UploadResult) (create : Except String Unit)
    (form : List (String × FormValue)) :
    objFromEntriesE form = .ok (objFromEntries form) ∧
    ((POST connect upload create form).message == "Invalid JSON data format") = false := by
  refine ⟨rfl, ?_⟩
  cases connect with
  | error e => rfl
  | ok _ =>
    by_cases hi : isTruthy (formGet form "image")
    · cases ht : jsonParse (jsToString (formGet form "tags")) with
      | error e => simp [POST, objFromEntriesE, hi, ht, postFail]
      | ok tg =>
        cases ha : jsonParse (jsToString (formGet form "agenda")) with
        | error e => simp [POST, objFromEntriesE, hi, ht, ha, postFail]
        | ok ag =>
          cases hb : fileArrayBuffer (formGet form "image") with
          | error e => simp [POST, objFromEntriesE, hi, ht, ha, hb, postFail]
          | ok buf =>
            cases upload with
            | error e => simp [POST, objFromEntriesE, hi, ht, ha, hb, postFail]
            | ok res =>
              cases create with
              | error e => simp [POST, objFromEntriesE, hi, ht, ha, hb, postFail]
              | ok _ => simp [POST, objFromEntriesE, hi, ht, ha, hb]
    · simp [POST, objFromEntriesE, hi, postReject]

/-- C3: once a call of `connectDB` has succeeded and cached a handle
(`conn = some h`), every later call of either variant returns that same
handle with the cache unchanged and starts no new connection attempt;
moreover any successful call does cache the handle it returns. -/
theorem connectDB_idempotent_after_success
    (h : Handle) (p : Option (Except String Handle)) (u : String)
    (uo : Option String) (r r2 : Except String Handle) (st : MongooseCache) :
    connectDB_v0 u r ⟨some h, p⟩ = ⟨.ok h, ⟨some h, p⟩, false⟩ ∧
    connectDB_v1 uo r ⟨some h, p⟩ = ⟨.ok h, ⟨some h, p⟩, false⟩ ∧
    ((connectDB_v0 u r2 st).result = .ok h → (connectDB_v0 u r2 st).state.conn = some h) ∧
    ((connectDB_v1 uo r2 st).result = .ok h → (connectDB_v1 uo r2 st).state.conn = some h) := by
  obtain ⟨c, pr⟩ := st
  refine ⟨rfl, rfl, ?_, ?_⟩
  · rcases c with _ | h2
    · rcases pr with _ | pd
      · rcases r2 with e | h2 <;> simp [connectDB_v0]
      · rcases pd with e | h2 <;> simp [connectDB_v0]
    · simp [connectDB_v0]
  · rcases c with _ | h2
    · rcases pr with _ | pd
      · rcases uo with _ | u2
        · simp [connectDB_v1]
        · rcases r2 with e | h2 <;> simp [connectDB_v1]
      · rcases pd with e | h2 <;> simp [connectDB_v1]
    · simp [connectDB_v1]

/-- Witness for C3 at concrete inputs. -/
theorem connectDB_idempotent_after_success_witness :
    connectDB_v0 "mongodb://db" (.ok 7) ⟨some 5, none⟩ = ⟨.ok 5, ⟨some 5, none⟩, false⟩ ∧
    (connectDB_v1 (some "mongodb://db") (.ok 5) ⟨none, none⟩).state.conn = some 5 :=
  ⟨(connectDB_idempotent_after_success 5 none "mongodb://db" (some "mongodb://db")
      (.ok 7) (.ok 5) ⟨none, none⟩).1,
   (connectDB_idempotent_after_success 5 none "mongodb://db" (some "mongodb://db")
      (.ok 7) (.ok 5) ⟨none, none⟩).2.2.2 rfl⟩

/-- C2 counterexample: in the `src/unnamed/part_000` variant the
missing-URI check fires at module load (the module itself throws the
configuration error when the URI is absent), contradicting the claim
that the check fires only at the first `connectDB` call. -/
theorem moduleInit_v0_throws_without_uri :
    moduleInit_v0 none none = .error uriErrorMsg := rfl

/-- C2 (amended): with the URI absent, in the `part_001` variant module
load succeeds and the first `connectDB` call fails with the
configuration error, starting no connection attempt and leaving the
cache empty (lazy check); in the `part_000` variant the same
configuration error fires already at module load. -/
theorem connectDB_missing_uri (g : Option MongooseCache) (r : Except String Handle) :
    moduleInit_v1 none g = .ok (g.getD ⟨none, none⟩) ∧
    connectDB_v1 none r ⟨none, none⟩ = ⟨.error uriErrorMsg, ⟨none, none⟩, false⟩ ∧
    moduleInit_v0 none g = .error uriErrorMsg := by
  cases g <;> exact ⟨rfl, rfl, rfl⟩

/-- C8: in both variants, when the awaited connection attempt fails, the
pending promise is cleared before the failure propagates (whether the
attempt was already pending or just started), and a subsequent call on
the resulting empty cache starts a fresh attempt. -/
theorem connectDB_failure_clears_pending (e : String) (u : String)
    (r r2 : Except String Handle) :
    connectDB_v0 u r ⟨none, some (.error e)⟩ = ⟨.error e, ⟨none, none⟩, false⟩ ∧
    connectDB_v1 (some u) r ⟨none, some (.error e)⟩ = ⟨.error e, ⟨none, none⟩, false⟩ ∧
    connectDB_v0 u (.error e) ⟨none, none⟩ = ⟨.error e, ⟨none, none⟩, true⟩ ∧
    connectDB_v1 (some u) (.error e) ⟨none, none⟩ = ⟨.error e, ⟨none, none⟩, true⟩ ∧
    (connectDB_v0 u r2 ⟨none, none⟩).attemptStarted = true ∧
    (connectDB_v1 (some u) r2 ⟨none, none⟩).attemptStarted = true := by
  refine ⟨rfl, rfl, rfl, rfl, ?_, ?_⟩ <;> cases r2 <;> rfl

instance : IsTotal StoredEvent (fun a b => b.createdAt ≤ a.createdAt) :=
  ⟨fun a b => Nat.le_total b.createdAt a.createdAt⟩

instance : IsTrans StoredEvent (fun a b => b.createdAt ≤ a.createdAt) :=
  ⟨fun _ _ _ hab hbc => Nat.le_trans hbc hab⟩

/-- C7: GET with a working connection and a successful query answers 200
with all stored events ordered by `createdAt` descending (a permutation
of the store, pairwise non-increasing); a connection failure (whatever
the query would have done) answers 500 with the raw error, and so does a
query failure after a successful connect. -/
theorem GET_ordered_or_500 (store : List StoredEvent)
    (f : Except String Unit) (e e2 : String) :
    GET (.ok ()) (.ok ()) store =
      ⟨200, "Events fetched successfully", some (mongoSortDesc store), none⟩ ∧
    (mongoSortDesc store).Sorted (fun a b => b.createdAt ≤ a.createdAt) ∧
    (mongoSortDesc store).Perm store ∧
    GET (.error e) f store = ⟨500, "Event fetching failed", none, some e⟩ ∧
    GET (.ok ()) (.error e2) store = ⟨500, "Event fetching failed", none, some e2⟩ := by
  refine ⟨rfl, ?_, ?_, rfl, rfl⟩
  · exact List.sorted_insertionSort _ store
  · exact List.perm_insertionSort _ store

/-- A form whose only entry named `image` is a text field, not a file. -/
def textImageForm : List (String × FormValue) := [("image", .str "x")]

/-- C5 counterexample: a POST whose multipart form contains no file field
named `image` (its `image` entry is a non-empty text field) is not
answered with 400 "Image file is required": the handler passes the
truthiness check, later throws calling `arrayBuffer` on the string, and
answers 500 "Event Creation Failed". -/
theorem POST_text_image_not_400 :
    (textImageForm.all fun kv =>
      match kv.2 with | .file _ => false | .str _ => true) = true ∧
    (POST (.ok ()) (.ok ⟨"https://cdn/u"⟩) (.ok ()) textImageForm).status = 500 ∧
    (POST (.ok ()) (.ok ⟨"https://cdn/u"⟩) (.ok ()) textImageForm).message =
      "Event Creation Failed" :=
  ⟨rfl, rfl, rfl⟩

/-- C5 (amended): every POST whose multipart form has no entry named
`image` at all (so `formData.get` yields null), after a successful
connect, is answered 400 "Image file is required", with no upload and no
insert. -/
theorem POST_missing_image_400 (upload : Except String UploadResult)
    (create : Except String Unit) (form : List (String × FormValue))
    (h : formGet form "image" = none) :
    (POST (.ok ()) upload create form).status = 400 ∧
    (POST (.ok ()) upload create form).message = "Image file is required" ∧
    (POST (.ok ()) upload create form).uploadCalled = false ∧
    (POST (.ok ()) upload create form).inserted = none := by
  simp [POST, objFromEntriesE, h, isTruthy, postReject]

/-- Witness for C5 (amended) at a concrete form without an `image`
entry. -/
theorem POST_missing_image_400_witness :
    (POST (.ok ()) (.ok ⟨"https://cdn/w"⟩) (.ok ())
        [("title", FormValue.str "party")]).status = 400 ∧
    (POST (.ok ()) (.ok ⟨"https://cdn/w"⟩) (.ok ())
        [("title", FormValue.str "party")]).message = "Image file is required" ∧
    (POST (.ok ()) (.ok ⟨"https://cdn/w"⟩) (.ok ())
        [("title", FormValue.str "party")]).uploadCalled = false ∧
    (POST (.ok ()) (.ok ⟨"https://cdn/w"⟩) (.ok ())
        [("title", FormValue.str "party")]).inserted = none :=
  POST_missing_image_400 _ _ _ rfl

/-- A form with an image file and `tags` set to the literal string
"not json". -/
def malformedTagsForm : List (String × FormValue) :=
  [("image", .file ⟨[1, 2, 3]⟩), ("tags", .str "not json")]

/-- C1: at the failing input (image file present, `tags` the malformed
string "not json") the handler answers 500 "Event Creation Failed", not
the documented 400 "Invalid JSON data format": the `JSON.parse` calls
sit outside the inner try/catch, so the parse error reaches the outer
catch. No upload and no insert happen. -/
theorem POST_malformed_tags_yields_500 :
    (POST (.ok ()) (.ok ⟨"https://cdn/c1"⟩) (.ok ()) malformedTagsForm).status = 500 ∧
    (POST (.ok ()) (.ok ⟨"https://cdn/c1"⟩) (.ok ()) malformedTagsForm).message =
      "Event Creation Failed" ∧
    (POST (.ok ()) (.ok ⟨"https://cdn/c1"⟩) (.ok ()) malformedTagsForm).uploadCalled = false ∧
    (POST (.ok ()) (.ok ⟨"https://cdn/c1"⟩) (.ok ()) malformedTagsForm).inserted = none :=
  ⟨rfl, rfl, rfl, rfl⟩

/-- C4: whenever a POST reaches the media upload (truthy image value,
both JSON fields parse, readable file bytes, successful connect) and the
upload fails with message `e`, the handler answers 500 "Event Creation
Failed" carrying `e`, and no document is inserted. -/
theorem POST_upload_failure_no_insert (e : String) (create : Except String Unit)
    (form : List (String × FormValue)) (tags agenda : Json) (buf : List Nat)
    (himg : isTruthy (formGet form "image") = true)
    (htags : jsonParse (jsToString (formGet form "tags")) = .ok tags)
    (hagenda : jsonParse (jsToString (formGet form "agenda")) = .ok agenda)
    (hbuf : fileArrayBuffer (formGet form "image") = .ok buf) :
    (POST (.ok ()) (.error e) create form).status = 500 ∧
    (POST (.ok ()) (.error e) create form).message = "Event Creation Failed" ∧
    (POST (.ok ()) (.error e) create form).error = some e ∧
    (POST (.ok ()) (.error e) create form).uploadCalled = true ∧
    (POST (.ok ()) (.error e) create form).inserted = none := by
  simp [POST, objFromEntriesE, himg, htags, hagenda, hbuf, postFail]

/-- Witness for C4 at a concrete request whose upload fails. -/
theorem POST_upload_failure_no_insert_witness :
    (POST (.ok ()) (.error "upload down") (.ok ())
        [("image", FormValue.file ⟨[0]⟩)]).status = 500 ∧
    (POST (.ok ()) (.error "upload down") (.ok ())
        [("image", FormValue.file ⟨[0]⟩)]).message = "Event Creation Failed" ∧
    (POST (.ok ()) (.error "upload down") (.ok ())
        [("image", FormValue.file ⟨[0]⟩)]).error = some "upload down" ∧
    (POST (.ok ()) (.error "upload down") (.ok ())
        [("image", FormValue.file ⟨[0]⟩)]).uploadCalled = true ∧
    (POST (.ok ()) (.error "upload down") (.ok ())
        [("image", FormValue.file ⟨[0]⟩)]).inserted = none :=
  POST_upload_failure_no_insert "upload down" (.ok ()) _ .null .null [0] rfl rfl rfl rfl

/-- A form with an image file, `tags` the JSON string for ["a","b"] and
`agenda` the JSON string for ["x"]. -/
def validEventForm (f : FileData) : List (String × FormValue) :=
  [("image", .file f), ("tags", .str "[\"a\",\"b\"]"), ("agenda", .str "[\"x\"]")]

/-- C6: every POST carrying an image file, `tags = ["a","b"]` and
`agenda = ["x"]` as JSON strings (plus any further form fields), with a
successful upload returning secure URL `u` and a successful insert, is
answered 201, and the returned event has `image = u`,
`tags = ["a","b"]` and `agenda = ["x"]`. -/
theorem POST_valid_form_201 (f : FileData) (u : String)
    (extra : List (String × FormValue)) :
    (POST (.ok ()) (.ok ⟨u⟩) (.ok ()) (validEventForm f ++ extra)).status = 201 ∧
    ((POST (.ok ()) (.ok ⟨u⟩) (.ok ()) (validEventForm f ++ extra)).event.map
        (fun d => (d "image", d "tags", d "agenda"))) =
      some (some (.str u), some (.json (.arr [.str "a", .str "b"])),
        some (.json (.arr [.str "x"]))) :=
  ⟨rfl, rfl⟩

/-- C10: a POST whose form has an image file but omits `tags` and
`agenda` entirely is not rejected: `formData.get` yields null, which
`JSON.parse` receives as the string "null" and parses to JSON null, and
the document is inserted with `tags` and `agenda` equal to null. -/
theorem POST_missing_tags_parses_null (f : FileData) (u : String) :
    jsToString (formGet [("image", FormValue.file f)] "tags") = "null" ∧
    jsonParse "null" = .ok .null ∧
    (POST (.ok ()) (.ok ⟨u⟩) (.ok ()) [("image", .file f)]).status = 201 ∧
    ((POST (.ok ()) (.ok ⟨u⟩) (.ok ()) [("image", .file f)]).inserted.map
        (fun d => (d "tags", d "agenda"))) =
      some (some (.json .null), some (.json .null)) :=
  ⟨rfl, rfl, rfl, rfl⟩
